import Mathlib

/-!
Verification development for the cognicity-reports-powertrack module
(CognicityReportsPowertrack.js).  The definitions below are a shallow
embedding of the module's functions: the classifier in `filter`, the
callback-chained side effects (`dbQuery`, `ifNewUser`, `sendReplyTweet`,
the insert functions), the message lookup `getMessage`, and the
reconnect logic of `connectStream` (`reconnectStream`,
`reconnectSocket`, the ready handler).  Side-effecting code is embedded
as functions producing an explicit trace of events, with an environment
supplying the outcome of each external call (database queries, the
tweet send).  Error propagation (throw versus catch-and-log) is
embedded with `Except`.
-/

namespace CogniCity

/-- Outcome of one database interaction in `dbQuery`: the connection
callback may report an error, the query callback may report an error,
or the query succeeds and yields rows. -/
inductive DbOutcome
  | connError
  | queryError
  | ok
deriving DecidableEq, Repr

/-- Report variants persisted by the module: confirmed reports
(`insertConfirmed`), unconfirmed reports (`insertUnConfirmed`) and
non-spatial reports (`insertNonSpatial`). -/
inductive ReportKind
  | confirmed
  | unconfirmed
  | nonSpatial
deriving DecidableEq, Repr

/-- Observable events of the orchestration trace.  Each constructor
corresponds to an externally visible action of the JS module: issuing a
database statement, logging, attempting or skipping a tweet send. -/
inductive Ev
  | reportInsert (k : ReportKind)
  | upsertUser (user : String)
  | inviteeInsert (user : String)
  | nonSpatialUserInsert (user : String)
  | userExistsQuery (user : String)
  | skipExistingUser (user : String)
  | sendAttempt (user : String) (message : Option String)
  | sendError (user : String)
  | testModeLog (user : String) (message : Option String)
  | dispatchSuccess (user : String) (message : Option String)
  | warnUnmatched
  | logDbError
  | logCallbackError (e : String)
  | logError (e : String)
  | streamStart
deriving DecidableEq, Repr

/-- One entry of `tweetActivity.gnip.matching_rules`; the `tag` field
may be absent (the JS code guards with `if (rule.tag)`). -/
structure GnipRule where
  tag : Option String
deriving Repr

/-- The `geo` member of a tweet activity; its `coordinates` member may
itself be absent (the JS code tests `tweetActivity.geo &&
tweetActivity.geo.coordinates`).  Coordinate components are kept as
opaque strings: the module only concatenates them into a POINT text. -/
structure Geo where
  coordinates : Option (String × String)
deriving Repr

/-- The fields of a Gnip tweet activity that the module reads. -/
structure TweetActivity where
  preferredUsername : String
  postedTime : String
  body : String
  twitter_lang : String
  geo : Option Geo
  matching_rules : List GnipRule
deriving Repr

/-- The three boolean facts accumulated by the `forEach` loop over
`matching_rules` in `filter`. -/
structure RuleFlags where
  geoInBoundingBox : Bool
  addressed : Bool
  locationMatch : Bool
deriving DecidableEq, Repr

/-- The `tag.indexOf(p)===0` test of the source: the tag starts with
the text `p`, expressed on the character lists of the strings. -/
def strStarts (s p : String) : Bool :=
  p.data.isPrefixOf s.data

/-- Body of the `forEach` loop in `filter`: a rule with a present tag
switches each flag on when the tag starts with the corresponding
recognized text ("geo", "addressed", "location"); a rule without a tag
leaves the flags unchanged. -/
def ruleFlagsStep (acc : RuleFlags) (rule : GnipRule) : RuleFlags :=
  match rule.tag with
  | none => acc
  | some tag =>
      { geoInBoundingBox := acc.geoInBoundingBox || strStarts tag "geo",
        addressed := acc.addressed || strStarts tag "addressed",
        locationMatch := acc.locationMatch || strStarts tag "location" }

/-- The `forEach` loop of `filter` over the matching rules, starting
from all-false flags. -/
def ruleFlags (rules : List GnipRule) : RuleFlags :=
  rules.foldl ruleFlagsStep ⟨false, false, false⟩

/-- Whether a rule's tag is present and starts with the given text
(the `rule.tag.indexOf(p)===0` test of the source). -/
def tagStarts (rule : GnipRule) (p : String) : Bool :=
  match rule.tag with
  | some s => strStarts s p
  | none => false

/-- The `geoInBoundingBox` variable computed by `filter`. -/
def geoInBoundingBox (t : TweetActivity) : Bool :=
  (ruleFlags t.matching_rules).geoInBoundingBox

/-- The `addressed` variable computed by `filter`. -/
def addressed (t : TweetActivity) : Bool :=
  (ruleFlags t.matching_rules).addressed

/-- The `locationMatch` variable computed by `filter`. -/
def locationMatch (t : TweetActivity) : Bool :=
  (ruleFlags t.matching_rules).locationMatch

/-- The `hasGeo` variable of `filter`: the activity has a `geo` member
and that member has coordinates. -/
def hasGeo (t : TweetActivity) : Bool :=
  match t.geo with
  | some g => g.coordinates.isSome
  | none => false

/-- The five verdicts of the classifier branch in `filter`. -/
inductive Verdict
  | confirmed
  | askForGeo
  | unconfirmed
  | invite
  | unmatched
deriving DecidableEq, Repr

/-- The if/else chain of `filter` expressed on the four boolean facts,
in source order. -/
def classifyFacts (gib hg ad lm : Bool) : Verdict :=
  if gib && ad then Verdict.confirmed
  else if !gib && !hg && ad && lm then Verdict.askForGeo
  else if gib && !ad then Verdict.unconfirmed
  else if !gib && !hg && !ad && lm then Verdict.invite
  else Verdict.unmatched

/-- Verdict assigned by `filter` to a tweet activity. -/
def classify (t : TweetActivity) : Verdict :=
  classifyFacts (geoInBoundingBox t) (hasGeo t) (addressed t) (locationMatch t)

/-- The priority table of the specification: rows as (condition,
verdict) pairs in priority order. -/
def verdictRows (gib hg ad lm : Bool) : List (Bool × Verdict) :=
  [ (gib && ad, Verdict.confirmed),
    (!gib && !hg && ad && lm, Verdict.askForGeo),
    (gib && !ad, Verdict.unconfirmed),
    (!gib && !hg && !ad && lm, Verdict.invite) ]

/-- Evaluate a priority table top-to-bottom, returning the verdict of
the first satisfied row, and `unmatched` when no row is satisfied. -/
def firstRow : List (Bool × Verdict) → Verdict
  | [] => Verdict.unmatched
  | (c, v) :: rest => if c then v else firstRow rest

/-- Table-based classifier following the specification's words:
first satisfied row of the priority table, `unmatched` as the default
row. -/
def tableLookup (gib hg ad lm : Bool) : Verdict :=
  firstRow (verdictRows gib hg ad lm)

/-- The `forEach` accumulation over the rules equals an existential
scan of the tags for each recognized starting text. -/
theorem ruleFlags_foldl_any (rules : List GnipRule) (acc : RuleFlags) :
    rules.foldl ruleFlagsStep acc =
      ⟨acc.geoInBoundingBox || rules.any (fun r => tagStarts r "geo"),
       acc.addressed || rules.any (fun r => tagStarts r "addressed"),
       acc.locationMatch || rules.any (fun r => tagStarts r "location")⟩ := by
  induction rules generalizing acc with
  | nil => simp
  | cons r rest ih =>
      simp only [List.foldl_cons, List.any_cons, ih]
      cases h : r.tag with
      | none => simp [ruleFlagsStep, tagStarts, h]
      | some s => simp [ruleFlagsStep, tagStarts, h, Bool.or_assoc]

/-- The flags computed by the loop are exactly the tag-scan facts. -/
theorem ruleFlags_spec (rules : List GnipRule) :
    ruleFlags rules =
      ⟨rules.any (fun r => tagStarts r "geo"),
       rules.any (fun r => tagStarts r "addressed"),
       rules.any (fun r => tagStarts r "location")⟩ := by
  unfold ruleFlags
  rw [ruleFlags_foldl_any]
  simp

/-- C1: the classifier in `filter` assigns exactly one of the five
verdicts by first-satisfied-row evaluation of the priority table; the
boolean facts are derived as: `geoInBoundingBox` iff some matching-rule
tag starts with "geo", `addressed` iff some tag starts with
"addressed", `locationMatch` iff some tag starts with "location", and
`hasGeo` iff the event carries geo coordinates; at most one row of the
table is satisfied for any combination of the booleans and the table is
total via the default `unmatched` row, so every combination maps to
exactly one verdict. -/
theorem classifier_table_c1 (t : TweetActivity) :
    geoInBoundingBox t = t.matching_rules.any (fun r => tagStarts r "geo")
    ∧ addressed t = t.matching_rules.any (fun r => tagStarts r "addressed")
    ∧ locationMatch t = t.matching_rules.any (fun r => tagStarts r "location")
    ∧ hasGeo t = (t.geo.bind Geo.coordinates).isSome
    ∧ classify t = tableLookup (geoInBoundingBox t) (hasGeo t) (addressed t) (locationMatch t)
    ∧ (∀ gib hg ad lm : Bool, (verdictRows gib hg ad lm).countP (fun r => r.1) ≤ 1)
    ∧ (∀ gib hg ad lm : Bool,
        ((verdictRows gib hg ad lm).countP (fun r => r.1) = 1
          ∧ tableLookup gib hg ad lm ≠ Verdict.unmatched)
        ∨ ((verdictRows gib hg ad lm).countP (fun r => r.1) = 0
          ∧ tableLookup gib hg ad lm = Verdict.unmatched)) := by
  refine ⟨?_, ?_, ?_, ?_, ?_, ?_, ?_⟩
  · rw [geoInBoundingBox, ruleFlags_spec]
  · rw [addressed, ruleFlags_spec]
  · rw [locationMatch, ruleFlags_spec]
  · rw [hasGeo]
    cases h : t.geo <;> simp [h]
  · unfold classify classifyFacts tableLookup verdictRows firstRow
    cases geoInBoundingBox t <;> cases hasGeo t <;> cases addressed t <;>
      cases locationMatch t <;> rfl
  · intro gib hg ad lm
    cases gib <;> cases hg <;> cases ad <;> cases lm <;> decide
  · intro gib hg ad lm
    cases gib <;> cases hg <;> cases ad <;> cases lm <;> decide

/-- The parts of `config.twitter` read by `getMessage`: a partial map
from message codes to partial maps from language codes to texts, and
the configured default language. -/
structure TwitterConfig where
  codes : String → Option (String → Option String)
  defaultLanguage : String

/-- The body of `getMessage`: the text configured for the code and
language, else the text for the code and the default language, else a
logged warning and `null` (embedded as `none`); a missing code entry
also falls through to the warning and `null`. -/
def getMessage (cfg : TwitterConfig) (code lang : String) : Option String :=
  match cfg.codes code with
  | some entry =>
      match entry lang with
      | some m => some m
      | none => entry cfg.defaultLanguage
  | none => none

/-- Environment supplying the outcome of every external interaction of
one `filter` run: the message configuration, the hash function used to
key the all-users table, the contents of that table (a list of stored
user hashes), the outcome of each database statement, the send-enabled
flag and the error reported by the tweet send (absent on success). -/
structure Env where
  cfg : TwitterConfig
  md5 : String → String
  allUsers : List String
  userQueryO : DbOutcome
  reportInsertO : DbOutcome
  upsertO : DbOutcome
  inviteeO : DbOutcome
  nonSpatialUserO : DbOutcome
  sendEnabled : Bool
  sendErr : Option String

/-- Trace of one `dbQuery` call: the statement is issued; a connection
or query error is logged and the function returns; on success the
success callback runs inside try/catch, a callback that throws being
caught and logged rather than propagated. -/
def dbQuery (o : DbOutcome) (issue : Ev) (success : Except String (List Ev)) : List Ev :=
  issue :: match o with
  | DbOutcome.connError => [Ev.logDbError]
  | DbOutcome.queryError => [Ev.logDbError]
  | DbOutcome.ok =>
      match success with
      | Except.ok evs => evs
      | Except.error e => [Ev.logCallbackError e]

/-- Rows returned by the existence query of `ifNewUser`: the stored
hashes equal to the md5 of the queried user. -/
def userRows (env : Env) (user : String) : List String :=
  env.allUsers.filter (fun h => h == env.md5 user)

/-- Trace of `ifNewUser`: run the existence query; on success, run the
dependent callback when zero rows came back, otherwise log a debug
message and do nothing. -/
def ifNewUser (env : Env) (user : String) (success : List Ev) : List Ev :=
  dbQuery env.userQueryO (Ev.userExistsQuery user)
    (Except.ok (if (userRows env user).length == 0 then success
                else [Ev.skipExistingUser user]))

/-- The callback passed to `twit.updateStatus` in `sendReplyTweet`: a
send error is logged and nothing else happens; with no error the
success callback (a trace) runs.  The `dispatchSuccess` event marks the
send reporting no error. -/
def updateStatusCallback (user : String) (message : Option String)
    (err : Option String) (callback : List Ev) : List Ev :=
  match err with
  | some _ => [Ev.sendError user]
  | none => Ev.dispatchSuccess user message :: callback

/-- Trace of `sendReplyTweet`: gated by `ifNewUser`; when sending is
enabled the status update is attempted and its callback handles the
reported error; when sending is disabled the send is treated as
successful without transmitting (two info logs) and the success
callback still runs. -/
def sendReplyTweet (env : Env) (user : String) (message : Option String)
    (callback : List Ev) : List Ev :=
  ifNewUser env user
    (if env.sendEnabled then
      Ev.sendAttempt user message :: updateStatusCallback user message env.sendErr callback
     else
      Ev.testModeLog user message :: Ev.dispatchSuccess user message :: callback)

/-- The POINT text built by `insertConfirmed` from
`tweetActivity.geo.coordinates`; the JS code dereferences without a
guard, so the construction is partial in the embedding and yields
`none` exactly when the dereference would throw. -/
def confirmedPoint (t : TweetActivity) : Option String :=
  (t.geo.bind Geo.coordinates).map (fun c => c.1 ++ " " ++ c.2)

/-- The same unguarded POINT construction as it appears in
`insertUnConfirmed` (the source duplicates the expression). -/
def unConfirmedPoint (t : TweetActivity) : Option String :=
  (t.geo.bind Geo.coordinates).map (fun c => c.1 ++ " " ++ c.2)

/-- Events actually issued by a possibly-throwing run.  In this module
every throw happens while the statement values are being built, before
any statement is issued, so an erroring run has issued no event. -/
def runEvents : Except String (List Ev) → List Ev
  | Except.ok evs => evs
  | Except.error _ => []

/-- Run of `insertConfirmed`: building the values array dereferences
`geo.coordinates` without a guard, so when the POINT construction has
no value the call throws before any statement is issued; otherwise the
confirmed-report insert is issued and, on its success, the nested user
upsert. -/
def insertConfirmed (env : Env) (t : TweetActivity) : Except String (List Ev) :=
  match confirmedPoint t with
  | none => Except.error "TypeError: tweetActivity.geo.coordinates"
  | some _pt =>
      Except.ok (dbQuery env.reportInsertO (Ev.reportInsert ReportKind.confirmed)
        (Except.ok (dbQuery env.upsertO (Ev.upsertUser t.preferredUsername)
          (Except.ok []))))

/-- Trace of `insertInvitee`: issue the invitee insert. -/
def insertInvitee (env : Env) (user : String) : List Ev :=
  dbQuery env.inviteeO (Ev.inviteeInsert user) (Except.ok [])

/-- Run of `insertUnConfirmed`: the values array performs the same
unguarded `geo.coordinates` dereference, so a missing point throws
before the statement is issued; otherwise the unconfirmed-report
insert is issued. -/
def insertUnConfirmed (env : Env) (t : TweetActivity) : Except String (List Ev) :=
  match unConfirmedPoint t with
  | none => Except.error "TypeError: tweetActivity.geo.coordinates"
  | some _pt =>
      Except.ok (dbQuery env.reportInsertO (Ev.reportInsert ReportKind.unconfirmed)
        (Except.ok []))

/-- Trace of `insertNonSpatial`: issue the non-spatial report insert,
then, independently and gated by the new-user check, issue the
non-spatial user insert. -/
def insertNonSpatial (env : Env) (t : TweetActivity) : List Ev :=
  dbQuery env.reportInsertO (Ev.reportInsert ReportKind.nonSpatial) (Except.ok [])
  ++ ifNewUser env t.preferredUsername
      (dbQuery env.nonSpatialUserO (Ev.nonSpatialUserInsert t.preferredUsername)
        (Except.ok []))

/-- Run of `filter`: the if/else chain on the computed facts,
dispatching to the per-category actions of the source.  A throw inside
an action propagates out of `filter` (the unconfirmed branch skips its
subsequent `sendReplyTweet` call when `insertUnConfirmed` throws); the
exception is caught only by the stream's tweet handler. -/
def filter (env : Env) (t : TweetActivity) : Except String (List Ev) :=
  if geoInBoundingBox t && addressed t then
    insertConfirmed env t
  else if !geoInBoundingBox t && !hasGeo t && addressed t && locationMatch t then
    Except.ok (insertNonSpatial env t
      ++ sendReplyTweet env t.preferredUsername
          (getMessage env.cfg "thanks_text" t.twitter_lang) [])
  else if geoInBoundingBox t && !addressed t then
    match insertUnConfirmed env t with
    | Except.error e => Except.error e
    | Except.ok evs =>
        Except.ok (evs
          ++ sendReplyTweet env t.preferredUsername
              (getMessage env.cfg "invite_text" t.twitter_lang)
              (insertInvitee env t.preferredUsername))
  else if !geoInBoundingBox t && !hasGeo t && !addressed t && locationMatch t then
    Except.ok (sendReplyTweet env t.preferredUsername
      (getMessage env.cfg "invite_text" t.twitter_lang)
      (insertInvitee env t.preferredUsername))
  else
    Except.ok [Ev.warnUnmatched]

/-- The per-verdict action pipeline of `filter`, indexed by the
verdict. -/
def verdictAction (env : Env) (t : TweetActivity) : Verdict → Except String (List Ev)
  | Verdict.confirmed => insertConfirmed env t
  | Verdict.askForGeo =>
      Except.ok (insertNonSpatial env t
        ++ sendReplyTweet env t.preferredUsername
            (getMessage env.cfg "thanks_text" t.twitter_lang) [])
  | Verdict.unconfirmed =>
      match insertUnConfirmed env t with
      | Except.error e => Except.error e
      | Except.ok evs =>
          Except.ok (evs
            ++ sendReplyTweet env t.preferredUsername
                (getMessage env.cfg "invite_text" t.twitter_lang)
                (insertInvitee env t.preferredUsername))
  | Verdict.invite =>
      Except.ok (sendReplyTweet env t.preferredUsername
        (getMessage env.cfg "invite_text" t.twitter_lang)
        (insertInvitee env t.preferredUsername))
  | Verdict.unmatched => Except.ok [Ev.warnUnmatched]

/-- The trace of `filter` is the action pipeline of the verdict it
classifies the event into. -/
theorem filter_dispatch (env : Env) (t : TweetActivity) :
    filter env t = verdictAction env t (classify t) := by
  unfold filter classify classifyFacts verdictAction
  cases geoInBoundingBox t <;> cases hasGeo t <;> cases addressed t <;>
    cases locationMatch t <;> rfl

/-- Recognizer for invitee-insert events. -/
def isInviteeInsert : Ev → Bool
  | Ev.inviteeInsert _ => true
  | _ => false

/-- Recognizer for successful-dispatch events. -/
def isDispatchSuccess : Ev → Bool
  | Ev.dispatchSuccess _ _ => true
  | _ => false

/-- Ordering check on a trace: `guarded p q l` is true when no event
satisfying `p` occurs before the first event satisfying `q`, i.e. every
`p` event is preceded by some `q` event. -/
def guarded (p q : Ev → Bool) : List Ev → Bool
  | [] => true
  | e :: rest => if q e then true else if p e then false else guarded p q rest

/-- A trace with no `p` event at all is guarded. -/
theorem guarded_of_forall_not (p q : Ev → Bool) (l : List Ev)
    (h : ∀ e ∈ l, p e = false) : guarded p q l = true := by
  induction l with
  | nil => rfl
  | cons e rest ih =>
      have hp : p e = false := h e (List.mem_cons_self e rest)
      have hrest : guarded p q rest = true :=
        ih (fun x hx => h x (List.mem_cons_of_mem e hx))
      simp only [guarded, hp, hrest]
      cases hq : q e <;> simp

/-- Guardedness of a concatenation whose left part has no `p` event and
whose right part is guarded. -/
theorem guarded_append (p q : Ev → Bool) (xs ys : List Ev)
    (hx : ∀ e ∈ xs, p e = false) (hy : guarded p q ys = true) :
    guarded p q (xs ++ ys) = true := by
  induction xs with
  | nil => simpa
  | cons e rest ih =>
      have hp : p e = false := hx e (List.mem_cons_self e rest)
      have hrest : guarded p q (rest ++ ys) = true :=
        ih (fun x hx2 => hx x (List.mem_cons_of_mem e hx2))
      simp only [List.cons_append, guarded, hp, hrest]
      cases hq : q e <;> simp [hrest]

/-- A trace all of whose events fail `isInviteeInsert` contains no
invitee insert. -/
theorem invitee_not_mem_of_free (l : List Ev) (u : String)
    (h : ∀ e ∈ l, isInviteeInsert e = false) : Ev.inviteeInsert u ∉ l := by
  intro hmem
  have := h _ hmem
  simp [isInviteeInsert] at this

/-- `hasGeo` agrees with definedness of the two unguarded POINT
constructions. -/
theorem hasGeo_eq_point_isSome (t : TweetActivity) :
    hasGeo t = (unConfirmedPoint t).isSome
    ∧ hasGeo t = (confirmedPoint t).isSome := by
  unfold hasGeo unConfirmedPoint confirmedPoint
  cases ht : t.geo with
  | none => simp
  | some g => cases hg : g.coordinates <;> simp

/-- The confirmed-report pipeline never issues an invitee insert
(whether it throws or runs to completion). -/
theorem invitee_free_insertConfirmed (env : Env) (t : TweetActivity) :
    ∀ e ∈ runEvents (insertConfirmed env t), isInviteeInsert e = false := by
  cases hc : confirmedPoint t with
  | none => simp [insertConfirmed, hc, runEvents]
  | some pt =>
      simp only [insertConfirmed, hc, runEvents]
      unfold dbQuery
      cases env.reportInsertO <;> cases env.upsertO <;> simp [isInviteeInsert]

/-- The unconfirmed-report insert statement never issues an invitee
insert. -/
theorem invitee_free_unconfirmed_insert (env : Env) :
    ∀ e ∈ dbQuery env.reportInsertO (Ev.reportInsert ReportKind.unconfirmed)
      (Except.ok []), isInviteeInsert e = false := by
  unfold dbQuery
  cases env.reportInsertO <;> simp [isInviteeInsert]

/-- The non-spatial pipeline never issues an invitee insert. -/
theorem invitee_free_insertNonSpatial (env : Env) (t : TweetActivity) :
    ∀ e ∈ insertNonSpatial env t, isInviteeInsert e = false := by
  unfold insertNonSpatial ifNewUser dbQuery
  cases env.reportInsertO <;> cases env.userQueryO <;> cases env.nonSpatialUserO <;>
    cases hr : (userRows env t.preferredUsername).length == 0 <;>
      simp [hr, isInviteeInsert]

/-- In a `sendReplyTweet` trace, every invitee insert (which can only
come from the success callback) is preceded by a dispatch-success
event, for any callback and any environment. -/
theorem sendReply_guarded (env : Env) (u : String) (m : Option String)
    (cb : List Ev) :
    guarded isInviteeInsert isDispatchSuccess (sendReplyTweet env u m cb) = true := by
  unfold sendReplyTweet ifNewUser dbQuery updateStatusCallback
  cases env.userQueryO <;> cases env.sendEnabled <;> cases env.sendErr <;>
    cases hr : (userRows env u).length == 0 <;>
      simp [hr, guarded, isInviteeInsert, isDispatchSuccess]

/-- With sending enabled and the send reporting an error, the success
callback never runs, so `sendReplyTweet` issues no invitee insert. -/
theorem invitee_not_in_sendReply_on_error (env : Env) (u v : String)
    (m : Option String) (cb : List Ev) (f : String)
    (he : env.sendEnabled = true) (hf : env.sendErr = some f) :
    Ev.inviteeInsert v ∉ sendReplyTweet env u m cb := by
  unfold sendReplyTweet ifNewUser dbQuery updateStatusCallback
  rw [he, hf]
  cases env.userQueryO <;>
    cases hr : (userRows env u).length == 0 <;>
      simp [hr]

/-- The invitee insert is issued at the head of the `insertInvitee`
trace, for every database outcome. -/
theorem invitee_mem_insertInvitee (env : Env) (u : String) :
    Ev.inviteeInsert u ∈ insertInvitee env u := by
  unfold insertInvitee dbQuery
  cases env.inviteeO <;> simp

/-- With the new-user check passing, sending disabled: two info logs,
the send is treated as dispatched, and the success callback runs. -/
theorem sendReply_disabled_new (env : Env) (u : String) (m : Option String)
    (cb : List Ev) (hsend : env.sendEnabled = false)
    (hq : env.userQueryO = DbOutcome.ok) (hrows : userRows env u = []) :
    sendReplyTweet env u m cb =
      Ev.userExistsQuery u :: Ev.testModeLog u m :: Ev.dispatchSuccess u m :: cb := by
  unfold sendReplyTweet ifNewUser dbQuery
  rw [hq, hsend, hrows]
  simp

/-- C2: an invitee insert is never issued unless a successful
notification dispatch preceded it among the events the run issued (for
every event, so in particular for verdicts Unconfirmed and Invite); on
a send error no invitee insert is issued; with the send-enabled flag
false the send is treated as successful without transmitting and the
success callback still runs; and for the verdicts that reach the
notification (Invite always, Unconfirmed when the event carries
coordinates — a coordinate-free Unconfirmed event throws in
`insertUnConfirmed` before the notification) the dry-run dispatch and
the invitee insert both appear in the run. -/
theorem invitee_requires_dispatch_c2 (env : Env) (t : TweetActivity) :
    guarded isInviteeInsert isDispatchSuccess (runEvents (filter env t)) = true
    ∧ (∀ f, env.sendEnabled = true → env.sendErr = some f →
        ∀ u, Ev.inviteeInsert u ∉ runEvents (filter env t))
    ∧ (∀ (u : String) (m : Option String) (cb : List Ev),
        env.sendEnabled = false → env.userQueryO = DbOutcome.ok →
        userRows env u = [] →
        sendReplyTweet env u m cb
          = Ev.userExistsQuery u :: Ev.testModeLog u m
              :: Ev.dispatchSuccess u m :: cb)
    ∧ (env.sendEnabled = false → env.userQueryO = DbOutcome.ok →
        userRows env t.preferredUsername = [] →
        (classify t = Verdict.invite
          ∨ (classify t = Verdict.unconfirmed ∧ hasGeo t = true)) →
        Ev.dispatchSuccess t.preferredUsername
            (getMessage env.cfg "invite_text" t.twitter_lang)
          ∈ runEvents (filter env t)
        ∧ Ev.inviteeInsert t.preferredUsername ∈ runEvents (filter env t)) := by
  refine ⟨?_, ?_, ?_, ?_⟩
  · rw [filter_dispatch]
    cases classify t with
    | confirmed => exact guarded_of_forall_not _ _ _ (invitee_free_insertConfirmed env t)
    | askForGeo =>
        exact guarded_append _ _ _ _ (invitee_free_insertNonSpatial env t)
          (sendReply_guarded env _ _ _)
    | unconfirmed =>
        simp only [verdictAction]
        cases hc : unConfirmedPoint t with
        | none => simp [insertUnConfirmed, hc, runEvents, guarded]
        | some pt =>
            simp only [insertUnConfirmed, hc, runEvents]
            exact guarded_append _ _ _ _ (invitee_free_unconfirmed_insert env)
              (sendReply_guarded env _ _ _)
    | invite => exact sendReply_guarded env _ _ _
    | unmatched => rfl
  · intro f he hf u
    rw [filter_dispatch]
    cases classify t with
    | confirmed => exact invitee_not_mem_of_free _ _ (invitee_free_insertConfirmed env t)
    | askForGeo =>
        intro hmem
        rcases List.mem_append.mp hmem with h1 | h2
        · exact invitee_not_mem_of_free _ _ (invitee_free_insertNonSpatial env t) h1
        · exact invitee_not_in_sendReply_on_error env _ u _ _ f he hf h2
    | unconfirmed =>
        simp only [verdictAction]
        cases hc : unConfirmedPoint t with
        | none => simp [insertUnConfirmed, hc, runEvents]
        | some pt =>
            simp only [insertUnConfirmed, hc, runEvents]
            intro hmem
            rcases List.mem_append.mp hmem with h1 | h2
            · exact invitee_not_mem_of_free _ _ (invitee_free_unconfirmed_insert env) h1
            · exact invitee_not_in_sendReply_on_error env _ u _ _ f he hf h2
    | invite => exact invitee_not_in_sendReply_on_error env _ u _ _ f he hf
    | unmatched => simp [verdictAction, runEvents]
  · intro u m cb hsend hq hrows
    exact sendReply_disabled_new env u m cb hsend hq hrows
  · intro hsend hq hrows hv
    have hm := invitee_mem_insertInvitee env t.preferredUsername
    rw [filter_dispatch]
    rcases hv with hv | ⟨hv, hg⟩
    · rw [hv]
      simp only [verdictAction, runEvents]
      rw [sendReply_disabled_new env _ _ _ hsend hq hrows]
      exact ⟨by simp, by simp [hm]⟩
    · rw [hv]
      simp only [verdictAction]
      obtain ⟨pt, hpt⟩ : ∃ pt, unConfirmedPoint t = some pt := by
        have h2 := (hasGeo_eq_point_isSome t).1
        rw [hg] at h2
        exact Option.isSome_iff_exists.mp h2.symm
      simp only [insertUnConfirmed, hpt, runEvents]
      rw [sendReply_disabled_new env _ _ _ hsend hq hrows]
      constructor
      · exact List.mem_append_right _ (by simp)
      · exact List.mem_append_right _ (by simp [hm])

/-- Message configuration with no entries, used for concrete checks. -/
def cfgEmpty : TwitterConfig := ⟨fun _ => none, "en"⟩

/-- Concrete environment: empty all-users table, all database calls
succeeding, sending disabled (dry-run mode). -/
def envDryRun : Env :=
  { cfg := cfgEmpty, md5 := fun s => s, allUsers := [],
    userQueryO := DbOutcome.ok, reportInsertO := DbOutcome.ok,
    upsertO := DbOutcome.ok, inviteeO := DbOutcome.ok,
    nonSpatialUserO := DbOutcome.ok, sendEnabled := false, sendErr := none }

/-- Concrete tweet activity matching only a location rule and carrying
no coordinates (verdict Invite). -/
def tInvite : TweetActivity :=
  { preferredUsername := "alice", postedTime := "p", body := "b",
    twitter_lang := "en", geo := none,
    matching_rules := [⟨some "location-chennai"⟩] }

/-- Witness for C2 at a concrete Invite event in dry-run mode: the
dispatch-success event and the invitee insert both appear among the
issued events. -/
theorem invitee_requires_dispatch_c2_witness :
    Ev.dispatchSuccess tInvite.preferredUsername
        (getMessage envDryRun.cfg "invite_text" tInvite.twitter_lang)
      ∈ runEvents (filter envDryRun tInvite)
    ∧ Ev.inviteeInsert tInvite.preferredUsername
      ∈ runEvents (filter envDryRun tInvite) :=
  (invitee_requires_dispatch_c2 envDryRun tInvite).2.2.2 rfl rfl rfl
    (Or.inl (by decide))

/-- For a recipient whose hash is already stored, `sendReplyTweet`
reduces to the existence query and the skip log, independently of the
message, the send flags and the callback. -/
theorem sendReply_known_user (env : Env) (u : String) (m : Option String)
    (cb : List Ev) (h : env.md5 u ∈ env.allUsers) :
    sendReplyTweet env u m cb =
      dbQuery env.userQueryO (Ev.userExistsQuery u)
        (Except.ok [Ev.skipExistingUser u]) := by
  have h2 : ((userRows env u).length == 0) = false := by
    have hm : env.md5 u ∈ userRows env u := by
      simp [userRows, List.mem_filter, h]
    cases hr : userRows env u with
    | nil => rw [hr] at hm; simp at hm
    | cons a l => simp [hr]
  unfold sendReplyTweet ifNewUser
  rw [h2]
  simp

/-- C3: every reply is gated by the new-user check: for a recipient
whose hashed identity is already in the all-known-users table, no tweet
is sent, no test-mode log is made and the success continuation never
runs (the trace is the query plus the skip log, independent of message
and callback); conversely a send attempt or test-mode log can only
appear for an author whose hash is not yet present. -/
theorem reply_gated_by_new_user_c3 (env : Env) (u : String)
    (m : Option String) (cb : List Ev) :
    (env.md5 u ∈ env.allUsers →
      sendReplyTweet env u m cb =
        dbQuery env.userQueryO (Ev.userExistsQuery u)
          (Except.ok [Ev.skipExistingUser u])
      ∧ (∀ m2, Ev.sendAttempt u m2 ∉ sendReplyTweet env u m cb)
      ∧ (∀ m2, Ev.testModeLog u m2 ∉ sendReplyTweet env u m cb))
    ∧ (∀ m2, (Ev.sendAttempt u m2 ∈ sendReplyTweet env u m cb
          ∨ Ev.testModeLog u m2 ∈ sendReplyTweet env u m cb) →
        env.md5 u ∉ env.allUsers) := by
  constructor
  · intro h
    refine ⟨sendReply_known_user env u m cb h, ?_, ?_⟩
    all_goals
      intro m2
      rw [sendReply_known_user env u m cb h]
      unfold dbQuery
      cases env.userQueryO <;> simp
  · intro m2 hmem hk
    rw [sendReply_known_user env u m cb hk] at hmem
    unfold dbQuery at hmem
    revert hmem
    cases env.userQueryO <;> intro hmem <;> rcases hmem with h | h <;> simp at h

/-- Environment whose all-users table already holds the hash of
"bob" (identity hash function). -/
def envKnown : Env :=
  { cfg := cfgEmpty, md5 := fun s => s, allUsers := ["bob"],
    userQueryO := DbOutcome.ok, reportInsertO := DbOutcome.ok,
    upsertO := DbOutcome.ok, inviteeO := DbOutcome.ok,
    nonSpatialUserO := DbOutcome.ok, sendEnabled := true, sendErr := none }

/-- Witness for C3: for the known recipient "bob" the reply trace is
exactly the existence query plus the skip log, with the callback
dropped. -/
theorem reply_gated_by_new_user_c3_witness :
    sendReplyTweet envKnown "bob" (some "msg") [Ev.inviteeInsert "bob"] =
      dbQuery envKnown.userQueryO (Ev.userExistsQuery "bob")
        (Except.ok [Ev.skipExistingUser "bob"]) :=
  ((reply_gated_by_new_user_c3 envKnown "bob" (some "msg")
      [Ev.inviteeInsert "bob"]).1 (List.mem_cons_self _ _)).1

/-- C6 (amended): for a Confirmed event that carries geo coordinates,
exactly one confirmed-report insert is issued, no notification send is
attempted (neither a real attempt nor a test-mode log), and the user
upsert is issued if and only if the report insert succeeds; a Confirmed
event lacking coordinates throws on the unguarded `geo.coordinates`
dereference before any statement is issued, so the run errors and
issues nothing. -/
theorem confirmed_pipeline_c6 (env : Env) (t : TweetActivity)
    (hv : classify t = Verdict.confirmed) :
    (hasGeo t = true →
      (runEvents (filter env t)).countP
          (fun e => e == Ev.reportInsert ReportKind.confirmed) = 1
      ∧ (∀ u2 m2, Ev.sendAttempt u2 m2 ∉ runEvents (filter env t))
      ∧ (∀ u2 m2, Ev.testModeLog u2 m2 ∉ runEvents (filter env t))
      ∧ (Ev.upsertUser t.preferredUsername ∈ runEvents (filter env t)
          ↔ env.reportInsertO = DbOutcome.ok))
    ∧ (hasGeo t = false →
      (∃ e, filter env t = Except.error e)
      ∧ runEvents (filter env t) = []) := by
  rw [filter_dispatch, hv]
  simp only [verdictAction]
  constructor
  · intro hg
    obtain ⟨pt, hpt⟩ : ∃ pt, confirmedPoint t = some pt := by
      have h2 := (hasGeo_eq_point_isSome t).2
      rw [hg] at h2
      exact Option.isSome_iff_exists.mp h2.symm
    simp only [insertConfirmed, hpt, runEvents]
    unfold dbQuery
    cases env.reportInsertO <;> cases env.upsertO <;>
      simp [List.countP_cons, List.countP_nil, beq_iff_eq]
  · intro hg
    have hpt : confirmedPoint t = none := by
      have h2 := (hasGeo_eq_point_isSome t).2
      rw [hg] at h2
      cases hc : confirmedPoint t with
      | none => rfl
      | some pt => rw [hc] at h2; simp at h2
    simp only [insertConfirmed, hpt, runEvents]
    exact ⟨⟨"TypeError: tweetActivity.geo.coordinates", rfl⟩, by simp⟩

/-- Concrete Confirmed event: a bounding-box tag, an addressed tag and
coordinates present. -/
def tConfirmed : TweetActivity :=
  { preferredUsername := "carol", postedTime := "p", body := "b",
    twitter_lang := "en", geo := some ⟨some ("80.2", "13.05")⟩,
    matching_rules := [⟨some "geo-boundingbox"⟩, ⟨some "addressed-x"⟩] }

/-- Concrete event with a bounding-box tag and an addressed tag but no
geo member at all. -/
def tGeoTagNoCoords : TweetActivity :=
  { preferredUsername := "erin", postedTime := "p", body := "b",
    twitter_lang := "en", geo := none,
    matching_rules := [⟨some "geo-boundingbox"⟩, ⟨some "addressed-x"⟩] }

/-- Counterexample to C6 as stated: a geo-tagged, addressed event
without coordinates classifies as Confirmed, yet the run throws on the
unguarded `geo.coordinates` dereference and issues zero confirmed
report inserts and no upsert — not exactly one insert. -/
theorem confirmed_pipeline_c6_counterexample :
    classify tGeoTagNoCoords = Verdict.confirmed
    ∧ filter envDryRun tGeoTagNoCoords
        = Except.error "TypeError: tweetActivity.geo.coordinates"
    ∧ (runEvents (filter envDryRun tGeoTagNoCoords)).countP
        (fun e => e == Ev.reportInsert ReportKind.confirmed) = 0
    ∧ Ev.upsertUser tGeoTagNoCoords.preferredUsername
        ∉ runEvents (filter envDryRun tGeoTagNoCoords) := by
  refine ⟨by decide, rfl, rfl, ?_⟩
  intro hmem
  exact List.not_mem_nil _ hmem

/-- Witness for the amended C6 at a concrete Confirmed event carrying
coordinates, with all database calls succeeding. -/
theorem confirmed_pipeline_c6_witness :
    (runEvents (filter envDryRun tConfirmed)).countP
        (fun e => e == Ev.reportInsert ReportKind.confirmed) = 1
    ∧ (Ev.upsertUser tConfirmed.preferredUsername
          ∈ runEvents (filter envDryRun tConfirmed)
        ↔ envDryRun.reportInsertO = DbOutcome.ok) :=
  ⟨((confirmed_pipeline_c6 envDryRun tConfirmed (by decide)).1 (by decide)).1,
   ((confirmed_pipeline_c6 envDryRun tConfirmed (by decide)).1 (by decide)).2.2.2⟩

/-- C8: the new-user check is idempotent and non-erroring: with the
existence query succeeding and zero rows returned, the trace is the
query followed by the dependent callback, and two invocations in
sequence with no intervening insert run the callback both times; with
the author already present the trace is the query plus the debug-log
skip, a no-op; and (observed through a probe callback) the dependent
callback runs if and only if the existence query succeeds and returns
zero rows. -/
theorem ifNewUser_idempotent_c8 (env : Env) (u : String) (s : List Ev) :
    (env.userQueryO = DbOutcome.ok → userRows env u = [] →
      ifNewUser env u s = Ev.userExistsQuery u :: s
      ∧ ifNewUser env u s ++ ifNewUser env u s
          = (Ev.userExistsQuery u :: s) ++ (Ev.userExistsQuery u :: s))
    ∧ (env.userQueryO = DbOutcome.ok → userRows env u ≠ [] →
      ifNewUser env u s = [Ev.userExistsQuery u, Ev.skipExistingUser u])
    ∧ (Ev.warnUnmatched ∈ ifNewUser env u [Ev.warnUnmatched]
        ↔ (env.userQueryO = DbOutcome.ok ∧ userRows env u = [])) := by
  refine ⟨?_, ?_, ?_⟩
  · intro hq hr
    unfold ifNewUser dbQuery
    rw [hq, hr]
    simp
  · intro hq hr
    unfold ifNewUser dbQuery
    rw [hq]
    cases hr2 : userRows env u with
    | nil => exact absurd hr2 hr
    | cons a l => simp [hr2]
  · unfold ifNewUser dbQuery
    cases hq : env.userQueryO <;>
      cases hr : userRows env u <;> simp [hr]

/-- Witness for C8: with an empty all-users table the dependent
callback trace follows the query, and twice in sequence it runs both
times. -/
theorem ifNewUser_idempotent_c8_witness :
    ifNewUser envKnown "dave" [Ev.nonSpatialUserInsert "dave"]
        = Ev.userExistsQuery "dave" :: [Ev.nonSpatialUserInsert "dave"]
    ∧ ifNewUser envKnown "dave" [Ev.nonSpatialUserInsert "dave"]
        ++ ifNewUser envKnown "dave" [Ev.nonSpatialUserInsert "dave"]
        = (Ev.userExistsQuery "dave" :: [Ev.nonSpatialUserInsert "dave"])
          ++ (Ev.userExistsQuery "dave" :: [Ev.nonSpatialUserInsert "dave"]) :=
  (ifNewUser_idempotent_c8 envKnown "dave" [Ev.nonSpatialUserInsert "dave"]).1
    rfl (by decide)

/-- C9: `getMessage` returns the text configured for the code and
language, else the text for the code and the configured default
language, else `none` (warned, the embedding of the null return); and
`filter` passes the result to `sendReplyTweet` unconditionally, so an
unresolved lookup still proceeds to a send attempt carrying a null
message body. -/
theorem getMessage_fallback_c9 :
    (∀ (cfg : TwitterConfig) (code lang : String)
        (entry : String → Option String) (m : String),
        cfg.codes code = some entry → entry lang = some m →
        getMessage cfg code lang = some m)
    ∧ (∀ (cfg : TwitterConfig) (code lang : String)
        (entry : String → Option String),
        cfg.codes code = some entry → entry lang = none →
        getMessage cfg code lang = entry cfg.defaultLanguage)
    ∧ (∀ (cfg : TwitterConfig) (code lang : String),
        cfg.codes code = none → getMessage cfg code lang = none)
    ∧ (∀ (env : Env) (t : TweetActivity), classify t = Verdict.invite →
        filter env t = Except.ok (sendReplyTweet env t.preferredUsername
          (getMessage env.cfg "invite_text" t.twitter_lang)
          (insertInvitee env t.preferredUsername)))
    ∧ (∀ (env : Env) (t : TweetActivity), classify t = Verdict.invite →
        env.userQueryO = DbOutcome.ok → userRows env t.preferredUsername = [] →
        env.sendEnabled = true →
        Ev.sendAttempt t.preferredUsername
          (getMessage env.cfg "invite_text" t.twitter_lang)
          ∈ runEvents (filter env t)) := by
  refine ⟨?_, ?_, ?_, ?_, ?_⟩
  · intro cfg code lang entry m h1 h2
    unfold getMessage
    rw [h1]
    simp [h2]
  · intro cfg code lang entry h1 h2
    unfold getMessage
    rw [h1]
    simp [h2]
  · intro cfg code lang h1
    unfold getMessage
    rw [h1]
  · intro env t hv
    rw [filter_dispatch, hv]
    rfl
  · intro env t hv hq hr hs
    rw [filter_dispatch, hv]
    simp only [verdictAction, runEvents]
    unfold sendReplyTweet ifNewUser dbQuery updateStatusCallback
    rw [hq, hr, hs]
    cases env.sendErr <;> simp

/-- Environment with no configured message texts and sending enabled:
every message lookup is unresolved. -/
def envSendOn : Env :=
  { envDryRun with sendEnabled := true }

/-- Witness for C9: for the concrete Invite event under an empty
message configuration, a send attempt with a `none` body is in the
trace. -/
theorem getMessage_fallback_c9_witness :
    Ev.sendAttempt tInvite.preferredUsername
        (getMessage envSendOn.cfg "invite_text" tInvite.twitter_lang)
      ∈ runEvents (filter envSendOn tInvite) :=
  getMessage_fallback_c9.2.2.2.2 envSendOn tInvite (by decide) rfl rfl rfl

/-- Confirmed is decided exactly by the bounding-box and addressed
flags. -/
theorem classify_confirmed_iff (t : TweetActivity) :
    classify t = Verdict.confirmed ↔ (geoInBoundingBox t && addressed t) = true := by
  unfold classify classifyFacts
  cases geoInBoundingBox t <;> cases hasGeo t <;> cases addressed t <;>
    cases locationMatch t <;> simp

/-- Unconfirmed is decided exactly by the bounding-box flag together
with the negated addressed flag. -/
theorem classify_unconfirmed_iff (t : TweetActivity) :
    classify t = Verdict.unconfirmed
      ↔ (geoInBoundingBox t && !addressed t) = true := by
  unfold classify classifyFacts
  cases geoInBoundingBox t <;> cases hasGeo t <;> cases addressed t <;>
    cases locationMatch t <;> simp

/-- C10: the Confirmed and Unconfirmed verdicts do not depend on the
presence of geo coordinates: two events with identical matching rules
agree on these verdicts whatever their geo members; a Confirmed event
is routed to the confirmed-report pipeline; and for an event lacking
the geo member the unguarded coordinate dereference of
`insertConfirmed` has no value (the POINT construction is `none`). -/
theorem confirmed_independent_of_geo_c10 :
    (∀ t1 t2 : TweetActivity, t1.matching_rules = t2.matching_rules →
      (classify t1 = Verdict.confirmed ↔ classify t2 = Verdict.confirmed)
      ∧ (classify t1 = Verdict.unconfirmed ↔ classify t2 = Verdict.unconfirmed))
    ∧ (∀ (env : Env) (t : TweetActivity), classify t = Verdict.confirmed →
        filter env t = insertConfirmed env t)
    ∧ (∀ t : TweetActivity, t.geo = none → confirmedPoint t = none) := by
  refine ⟨?_, ?_, ?_⟩
  · intro t1 t2 h
    have hg : geoInBoundingBox t1 = geoInBoundingBox t2 := by
      unfold geoInBoundingBox; rw [h]
    have ha : addressed t1 = addressed t2 := by
      unfold addressed; rw [h]
    rw [classify_confirmed_iff, classify_confirmed_iff,
        classify_unconfirmed_iff, classify_unconfirmed_iff, hg, ha]
    exact ⟨Iff.rfl, Iff.rfl⟩
  · intro env t hv
    rw [filter_dispatch, hv]
    rfl
  · intro t h
    unfold confirmedPoint
    rw [h]
    rfl

/-- Witness for C10: the coordinate-free event with the same rules as
the Confirmed one gets the same verdict, is routed to
`insertConfirmed`, and its POINT construction has no value. -/
theorem confirmed_independent_of_geo_c10_witness :
    (classify tConfirmed = Verdict.confirmed
      ↔ classify tGeoTagNoCoords = Verdict.confirmed)
    ∧ filter envDryRun tGeoTagNoCoords = insertConfirmed envDryRun tGeoTagNoCoords
    ∧ confirmedPoint tGeoTagNoCoords = none :=
  ⟨(confirmed_independent_of_geo_c10.1 tConfirmed tGeoTagNoCoords rfl).1,
   confirmed_independent_of_geo_c10.2.1 envDryRun tGeoTagNoCoords (by decide),
   confirmed_independent_of_geo_c10.2.2 tGeoTagNoCoords rfl⟩

/-- State of the reconnect machinery in `connectStream`: the backoff
counter `streamReconnectTimeout` (in seconds), the
`reconnectTimeoutHandle` variable (identifier of the last timer set),
the list of timers currently pending, each with its identifier and
its delay in milliseconds, and a counter generating fresh timer
identifiers. -/
structure ConnState where
  streamReconnectTimeout : Nat
  reconnectTimeoutHandle : Option Nat
  live : List (Nat × Nat)
  nextId : Nat
deriving DecidableEq, Repr

/-- Remove the timer with the given identifier from the pending list
(the `clearTimeout` call; clearing an already-fired timer removes
nothing). -/
def removeTimer (live : List (Nat × Nat)) (h : Nat) : List (Nat × Nat) :=
  live.filter (fun p => p.1 != h)

/-- The initial reconnect state of one `connectStream` call:
`streamReconnectTimeout` is 1, no handle, no pending timer. -/
def initConn : ConnState :=
  { streamReconnectTimeout := 1, reconnectTimeoutHandle := none,
    live := [], nextId := 0 }

/-- The part of the `ready` handler acting on the reconnect state:
reset the backoff counter to 1 (delay floor of 1000 ms). -/
def onReady (s : ConnState) : ConnState :=
  { s with streamReconnectTimeout := 1 }

/-- The `reconnectStream` function: cancel the pending timer held in
`reconnectTimeoutHandle` if any, then schedule a new reconnect timer
with delay `streamReconnectTimeout * 1000` milliseconds and store its
handle. -/
def reconnectStream (s : ConnState) : ConnState :=
  let live1 := match s.reconnectTimeoutHandle with
    | some h => removeTimer s.live h
    | none => s.live
  { s with live := live1 ++ [(s.nextId, s.streamReconnectTimeout * 1000)],
           reconnectTimeoutHandle := some s.nextId,
           nextId := s.nextId + 1 }

/-- The `reconnectSocket` function's effect on the backoff state:
after destroying the socket and restarting the stream, the timeout is
doubled. -/
def reconnectSocket (s : ConnState) : ConnState :=
  { s with streamReconnectTimeout := s.streamReconnectTimeout * 2 }

/-- Firing of the scheduled reconnect timer: the timer leaves the
pending list and its body `reconnectSocket` runs. -/
def fireReconnectTimer (s : ConnState) : ConnState :=
  match s.reconnectTimeoutHandle with
  | some h => reconnectSocket { s with live := removeTimer s.live h }
  | none => s

/-- One failed reconnect cycle: a disconnect trigger queues the
reconnect, the timer fires and the reconnect attempt runs (and fails,
leading to the next trigger). -/
def reconnectCycle (s : ConnState) : ConnState :=
  fireReconnectTimer (reconnectStream s)

/-- Delays (in milliseconds) of the timers currently pending. -/
def pendingDelays (s : ConnState) : List Nat :=
  s.live.map (fun p => p.2)

/-- Shape of the reconnect state after N failed cycles following a
`ready` signal: the backoff counter is 2^N, nothing is pending, and N
timer identifiers have been consumed. -/
theorem reconnectCycle_iterate (N : Nat) :
    (reconnectCycle^[N] (onReady initConn)).streamReconnectTimeout = 2 ^ N
    ∧ (reconnectCycle^[N] (onReady initConn)).live = []
    ∧ (reconnectCycle^[N] (onReady initConn)).nextId = N := by
  induction N with
  | zero => exact ⟨rfl, rfl, rfl⟩
  | succ n ih =>
      obtain ⟨h1, h2, h3⟩ := ih
      rw [Function.iterate_succ_apply']
      generalize hS : reconnectCycle^[n] (onReady initConn) = S at h1 h2 h3
      unfold reconnectCycle reconnectStream fireReconnectTimer reconnectSocket removeTimer
      cases hh : S.reconnectTimeoutHandle <;>
        simp [h1, h2, h3, pow_succ, Nat.mul_comm]

/-- C4: the reconnect backoff starts at the 1000 ms floor, is reset to
the floor by every `ready` signal, and doubles on each reconnect cycle
with no ceiling: after N consecutive failed reconnect attempts the one
timer scheduled before attempt N+1 carries a delay of exactly
1000 * 2^N milliseconds. -/
theorem reconnect_backoff_c4 :
    (∀ s : ConnState, (onReady s).streamReconnectTimeout = 1)
    ∧ (∀ N : Nat,
        pendingDelays (reconnectStream (reconnectCycle^[N] (onReady initConn)))
          = [1000 * 2 ^ N]) := by
  constructor
  · intro s
    rfl
  · intro N
    obtain ⟨h1, h2, h3⟩ := reconnectCycle_iterate N
    unfold pendingDelays reconnectStream removeTimer
    cases hh : (reconnectCycle^[N] (onReady initConn)).reconnectTimeoutHandle <;>
      simp [h1, h2, Nat.mul_comm]

/-- Invariant of the reconnect timer bookkeeping: at most one timer is
pending, and when one is pending it is the one referenced by
`reconnectTimeoutHandle`. -/
def timerInv (s : ConnState) : Prop :=
  s.live = [] ∨ ∃ h d, s.reconnectTimeoutHandle = some h ∧ s.live = [(h, d)]

/-- One `reconnectStream` call on a state satisfying the invariant
leaves exactly one pending timer and preserves the invariant. -/
theorem reconnectStream_step (s : ConnState) (hs : timerInv s) :
    (reconnectStream s).live.length = 1 ∧ timerInv (reconnectStream s) := by
  have hlive : (reconnectStream s).live
      = [(s.nextId, s.streamReconnectTimeout * 1000)] := by
    unfold reconnectStream removeTimer
    rcases hs with h | ⟨h, d, hh, hl⟩
    · cases hc : s.reconnectTimeoutHandle <;> simp [h]
    · rw [hh, hl]
      simp
  have hhandle : (reconnectStream s).reconnectTimeoutHandle = some s.nextId := rfl
  exact ⟨by rw [hlive]; rfl,
    Or.inr ⟨s.nextId, s.streamReconnectTimeout * 1000, hhandle, hlive⟩⟩

/-- C5: any nonempty sequence of disconnect triggers (idle timeout,
stream error, stream end) in quick succession — each handler calling
`reconnectStream`, which cancels the pending timer before scheduling a
new one — leaves exactly one reconnect timer pending: timers are
replaced, never stacked. -/
theorem reconnect_single_timer_c5 (s : ConnState) (hs : timerInv s) (n : Nat) :
    (reconnectStream^[n + 1] s).live.length = 1 := by
  induction n generalizing s with
  | zero => exact (reconnectStream_step s hs).1
  | succ m ih =>
      rw [Function.iterate_succ_apply]
      exact ih (reconnectStream s) (reconnectStream_step s hs).2

/-- Witness for C5: two triggers in quick succession from the initial
state (an `error` and an `end` signal for the same broken session)
leave exactly one pending reconnect timer. -/
theorem reconnect_single_timer_c5_witness :
    (reconnectStream^[2] initConn).live.length = 1 :=
  reconnect_single_timer_c5 initConn (Or.inl rfl) 1

/-- The callback passed to `rules.update` in `connectStream`: a
provisioning error is rethrown (`throw err`) and nothing catches it, so
it propagates; with no error the stream is started. -/
def rulesUpdateCallback (err : Option String) : Except String (List Ev) :=
  match err with
  | some e => Except.error e
  | none => Except.ok [Ev.streamStart]

/-- The stream `tweet` handler of `connectStream`: `filter` runs inside
try/catch, so a throwing classification run is caught and logged
instead of propagating. -/
def tweetHandler (r : Except String (List Ev)) : Except String (List Ev) :=
  match r with
  | Except.ok evs => Except.ok evs
  | Except.error e => Except.ok [Ev.logError e]

/-- C7: an error propagates (aborting the process) exactly when it is a
rule-provisioning failure: the `rules.update` callback rethrows its
error and starts the stream only on a successful push, while the
`tweet` handler catches every classification error, `dbQuery` logs
connection errors, query errors and throwing success callbacks and
returns, and a notification send error is logged with only its
dependent callback suppressed. -/
theorem fatal_only_rules_c7 :
    (∀ e : String, rulesUpdateCallback (some e) = Except.error e)
    ∧ (∀ err : Option String,
        (∃ evs, rulesUpdateCallback err = Except.ok evs ∧ Ev.streamStart ∈ evs)
          ↔ err = none)
    ∧ (∀ err : Option String,
        (∃ e, rulesUpdateCallback err = Except.error e) ↔ ∃ e, err = some e)
    ∧ (∀ r : Except String (List Ev), ∃ evs, tweetHandler r = Except.ok evs)
    ∧ (∀ (i : Ev) (su : Except String (List Ev)),
        dbQuery DbOutcome.connError i su = [i, Ev.logDbError]
        ∧ dbQuery DbOutcome.queryError i su = [i, Ev.logDbError])
    ∧ (∀ (i : Ev) (e : String),
        dbQuery DbOutcome.ok i (Except.error e) = [i, Ev.logCallbackError e])
    ∧ (∀ (u : String) (m : Option String) (f : String) (cb : List Ev),
        updateStatusCallback u m (some f) cb = [Ev.sendError u]) := by
  refine ⟨?_, ?_, ?_, ?_, ?_, ?_, ?_⟩
  · intro e
    rfl
  · intro err
    cases err with
    | none =>
        exact ⟨fun _ => rfl, fun _ => ⟨[Ev.streamStart], rfl, by simp⟩⟩
    | some e =>
        constructor
        · rintro ⟨evs, hevs, hmem⟩
          exact absurd hevs (by simp [rulesUpdateCallback])
        · intro h
          exact absurd h (by simp)
  · intro err
    cases err <;> simp [rulesUpdateCallback]
  · intro r
    cases r with
    | ok evs => exact ⟨evs, rfl⟩
    | error e => exact ⟨[Ev.logError e], rfl⟩
  · intro i su
    exact ⟨rfl, rfl⟩
  · intro i e
    rfl
  · intro u m f cb
    rfl

/-- Witness for C1 at a concrete event: the source classifier agrees
with the priority-table reading on the Confirmed example. -/
theorem classifier_table_c1_witness :
    classify tConfirmed
      = tableLookup (geoInBoundingBox tConfirmed) (hasGeo tConfirmed)
          (addressed tConfirmed) (locationMatch tConfirmed) :=
  (classifier_table_c1 tConfirmed).2.2.2.2.1

/-- Witness for C4 at N = 3: after three failed reconnect cycles the
single scheduled timer carries a delay of 8000 ms. -/
theorem reconnect_backoff_c4_witness :
    pendingDelays (reconnectStream (reconnectCycle^[3] (onReady initConn)))
      = [1000 * 2 ^ 3] :=
  reconnect_backoff_c4.2 3

/-- Witness for C7 at concrete errors: the rules-provisioning failure
propagates; a thrown classification error is caught into a log. -/
theorem fatal_only_rules_c7_witness :
    rulesUpdateCallback (some "rules failure") = Except.error "rules failure"
    ∧ (∃ evs, tweetHandler (Except.error "boom") = Except.ok evs) :=
  ⟨fatal_only_rules_c7.1 "rules failure",
   fatal_only_rules_c7.2.2.2.1 (Except.error "boom")⟩

end CogniCity
